import Mathlib

/-
  Verification development for the battle state machine of this repository

    src/frontend/src/components/MobileMenu.jsx  (component BattleGame,
    reducer battleReducer, lines 93-835, plus the callbacks of BattleGame
    that gate dispatches: applyEnergyDecay at lines 965-970).

  Modelling conventions (shallow embedding):
  * JS numbers holding integer game quantities are modelled as Int.
    Math.max / Math.min become max / min on Int.
  * Math.floor(e * ENERGY_DECAY_RATE) with ENERGY_DECAY_RATE = 0.1 is
    modelled as e / 10 (Lean's Int division is Euclidean; for the positive
    divisor 10 it is exactly floor division), and Math.floor(m / 10)
    likewise as m / 10.
  * The JS falsy-default idiom on numbers, x || d, is modelled by jsOr:
    an absent numeric field and the number 0 are both falsy, so absent
    numeric fields are encoded as 0.
  * Possibly-absent objects become Option; a JS TypeError raised by
    dereferencing a property of null/undefined is modelled as
    Except.error ().  The reducer therefore has result type
    Except Unit BattleState and every non-throwing branch returns .ok.
  * battleLog entry ids (Date.now() + Math.random()) are nondeterministic
    and irrelevant to state logic; log entries are modelled as
    (turn, message) pairs.
  * The external collaborators processAttack, defendCreature, applyTool,
    applySpell (from ../utils/battleCore) are opaque to the reducer and are
    passed as a parameter bundle (structure Externals).
  * The APPLY_ONGOING_EFFECTS action's addLog callback only dispatches
    separate ADD_LOG actions later; it does not affect the state produced
    by the APPLY_ONGOING_EFFECTS transition itself, so it is omitted.
-/

namespace BattleSim

/-- Per-side integer counters, e.g. consecutiveActions and energyMomentum
(the source's per-side counter objects with player and enemy slots). -/
structure SideCounters where
  player : Int
  enemy : Int
  deriving DecidableEq

/-- The derived battle stats stamped onto a creature (battleStats object).
The reducer reads and writes maxHealth, physicalAttack, magicalAttack and
energyCost; statEffect deltas are applied to whichever of these a delta
names. -/
structure BattleStats where
  maxHealth : Int
  physicalAttack : Int
  magicalAttack : Int
  energyCost : Int
  deriving DecidableEq

/-- A duration-based effect carried by a creature (activeEffects entry). -/
structure Effect where
  name : String
  duration : Int
  healthEffect : Int
  statEffect : List (String × Int)
  deriving DecidableEq

/-- A creature battle instance.  activeEffects entries can be null in the
source (the loop starts with a null check and skips them), hence
Option Effect. -/
structure Creature where
  id : String
  species_name : String
  battleStats : BattleStats
  currentHealth : Int
  activeEffects : List (Option Effect)
  isDefending : Bool
  deriving DecidableEq

/-- A tool or spell item (only id and name are read by the reducer). -/
structure Item where
  id : String
  name : String
  deriving DecidableEq

/-- One battle log entry; the nondeterministic id field is omitted. -/
structure LogEntry where
  turn : Int
  message : String
  deriving DecidableEq

/-- The battle state owned by the reducer (the useReducer state object). -/
structure BattleState where
  gameState : String
  turn : Int
  activePlayer : String
  difficulty : String
  playerDeck : List Creature
  playerHand : List Creature
  playerField : List Creature
  playerEnergy : Int
  playerTools : List Item
  playerSpells : List Item
  enemyDeck : List Creature
  enemyHand : List Creature
  enemyField : List Creature
  enemyEnergy : Int
  enemyTools : List Item
  enemySpells : List Item
  battleLog : List LogEntry
  consecutiveActions : SideCounters
  energyMomentum : SideCounters
  deriving DecidableEq

/-- Result shape of the external processAttack collaborator, whose
contract guarantees updatedAttacker and updatedDefender are present. -/
structure AttackResult where
  updatedAttacker : Creature
  updatedDefender : Creature
  battleLog : String
  deriving DecidableEq

/-- Result shape of applyTool; updatedCreature may be absent in a
malformed result. -/
structure ToolResult where
  updatedCreature : Option Creature
  deriving DecidableEq

/-- Result shape of applySpell; the fields may be absent in a malformed
result. -/
structure SpellResult where
  updatedCaster : Option Creature
  updatedTarget : Option Creature
  deriving DecidableEq

/-- An AI action descriptor (aiAction object): a type tag plus optional
creature/attacker/target/tool/spell references and an energy cost.
Descriptors whose type is none of deploy/attack/defend/useTool/useSpell
(for example the endTurn sentinel) are collected in `other`. -/
inductive AiAction where
  | deploy (creature : Option Creature) (energyCost : Int)
  | attack (attacker target : Option Creature) (energyCost : Int)
  | defend (creature : Option Creature) (energyCost : Int)
  | useTool (tool : Option Item) (target : Option Creature) (energyCost : Int)
  | useSpell (spell : Option Item) (caster target : Option Creature) (energyCost : Int)
  | other (tag : String)
  deriving DecidableEq

/-- The aiAction.energyCost property read (absent on sentinel descriptors,
hence 0 = falsy). -/
def AiAction.energyCost : AiAction → Int
  | .deploy _ c => c
  | .attack _ _ c => c
  | .defend _ c => c
  | .useTool _ _ c => c
  | .useSpell _ _ _ c => c
  | .other _ => 0

/-- The reducer's action space (the ACTIONS table of the source).
`unknown` stands for any dispatched object whose type tag is none of the
defined action kinds; it reaches the reducer's default case. -/
inductive Action where
  | startBattle (playerDeck playerHand : List Creature)
      (playerTools playerSpells : List Item)
      (enemyDeck enemyHand : List Creature)
      (enemyTools enemySpells : List Item) (difficulty : String)
  | deployCreature (creature : Creature) (energyCost : Int)
  | enemyDeployCreature (creature : Creature) (energyCost : Int)
  | updateCreature (creature : Creature) (isPlayer : Bool)
  | attack (attackResult : AttackResult) (energyCost : Int)
  | useTool (result : Option ToolResult) (tool : Item) (isPlayerTool isEnemyTool : Bool)
  | useSpell (spellResult : Option SpellResult) (spell : Item) (energyCost : Int) (isEnemySpell : Bool)
  | defend (updatedCreature : Creature)
  | drawCard (player : String)
  | regenerateEnergy (playerRegen enemyRegen : Int)
  | applyEnergyDecay
  | setActivePlayer (player : String)
  | incrementTurn
  | setGameState (gameState : String)
  | applyOngoingEffects (updatedPlayerField updatedEnemyField : Option (List Creature))
  | addLog (message : String)
  | spendEnergy (player : String) (amount : Int)
  | executeAIAction (aiAction : AiAction)
  | executeAIActionSequence (actionSequence : List AiAction)
  | comboBonus (player : String)
  | unknown (tag : String)

/-- The external collaborator functions consumed by the AI execution
branches of the reducer.  defendCreature takes an optional difficulty:
the single-action branch passes state.difficulty, the sequence branch
calls it with no second argument. -/
structure Externals where
  processAttack : Creature → Creature → AttackResult
  defendCreature : Creature → Option String → Creature
  applyTool : Creature → Item → String → Option ToolResult
  applySpell : Creature → Creature → Item → String → Option SpellResult

/-- Constant from the BALANCED CONSTANTS block of the source. -/
def ATTACK_ENERGY_COST : Int := 2

/-- Constant from the BALANCED CONSTANTS block of the source. -/
def DEFEND_ENERGY_COST : Int := 1

/-- Constant from the BALANCED CONSTANTS block of the source. -/
def BASE_ENERGY_REGEN : Int := 3

/-- Constant from the BALANCED CONSTANTS block of the source. -/
def SPELL_ENERGY_COST : Int := 4

/-- Constant from the BALANCED CONSTANTS block of the source. -/
def TOOL_ENERGY_COST : Int := 0

/-- Constant from the BALANCED CONSTANTS block of the source. -/
def MAX_ENERGY : Int := 15

/-- The JS falsy-default idiom on integer quantities: 0 (and an absent
field, encoded as 0) falls back to the default. -/
def jsOr (x fallback : Int) : Int := if x = 0 then fallback else x

/-- The capitalisation used in the START_BATTLE log message. -/
def capitalizeJs (s : String) : String := (s.take 1).toUpper ++ s.drop 1

/-- The filter predicate used to drop defeated creatures from a field
(currentHealth strictly positive). -/
def alive (c : Creature) : Bool := decide (0 < c.currentHealth)

/-- The resolved deploy cost: the action's energyCost, falling back to the
creature's battleStats.energyCost, falling back to 3. -/
def deployEnergyCost (creature : Creature) (actionCost : Int) : Int :=
  jsOr actionCost (jsOr creature.battleStats.energyCost 3)

/-- One statEffect delta applied to battleStats; deltas naming a stat the
record does not carry are skipped (the undefined check in the source). -/
def applyStatDelta (bs : BattleStats) (stat : String) (value : Int) : BattleStats :=
  if stat = "maxHealth" then { bs with maxHealth := bs.maxHealth + value }
  else if stat = "physicalAttack" then { bs with physicalAttack := bs.physicalAttack + value }
  else if stat = "magicalAttack" then { bs with magicalAttack := bs.magicalAttack + value }
  else if stat = "energyCost" then { bs with energyCost := bs.energyCost + value }
  else bs

/-- The per-creature effect loop of APPLY_ONGOING_EFFECTS: walk
activeEffects (skipping null entries), apply healthEffect (clamped into
[0, maxHealth]; skipped when 0 = falsy), apply statEffect deltas,
decrement duration and retain the effect only if the new duration is
positive.  Returns the updated creature together with the
remainingEffects list. -/
def tickEffects (creature : Creature) : Creature × List Effect :=
  creature.activeEffects.foldl
    (fun acc eff? =>
      match eff? with
      | none => acc
      | some eff =>
        let c := acc.1
        let c1 :=
          if eff.healthEffect ≠ 0 then
            { c with currentHealth := (min c.battleStats.maxHealth
                (max 0 (c.currentHealth + eff.healthEffect))) }
          else c
        let c2 := { c1 with battleStats :=
            (eff.statEffect.foldl (fun bs sv => applyStatDelta bs sv.1 sv.2) c1.battleStats) }
        let eff2 := { eff with duration := eff.duration - 1 }
        if 0 < eff2.duration then (c2, acc.2 ++ [eff2]) else (c2, acc.2))
    (creature, [])

/-- The full per-creature processing of the APPLY_ONGOING_EFFECTS mappers
(the player-field and enemy-field mappers are identical up to log text):
tick all effects, store the remaining ones, reset isDefending. -/
def processCreatureEffects (creature : Creature) : Creature :=
  let r := tickEffects creature
  { r.1 with activeEffects := r.2.map some, isDefending := false }

/-- The APPLY_ENERGY_DECAY reducer case: subtract floor(energy * 0.1) from
each side, floored at 0. -/
def applyEnergyDecayTransition (state : BattleState) : BattleState :=
  { state with
    playerEnergy := (max 0 (state.playerEnergy - state.playerEnergy / 10)),
    enemyEnergy := (max 0 (state.enemyEnergy - state.enemyEnergy / 10)) }

/-- The applyEnergyDecay callback of BattleGame (lines 965-970): the
APPLY_ENERGY_DECAY action is dispatched only when either side's energy
exceeds 10, and then decays both sides. -/
def applyEnergyDecay (state : BattleState) : BattleState :=
  if 10 < state.playerEnergy ∨ 10 < state.enemyEnergy then
    applyEnergyDecayTransition state
  else state

/-- The EXECUTE_AI_ACTION reducer case: one AI action descriptor executed
with energy validation, duplicate-deployment protection and
streak/momentum accounting.  The useSpell sub-branch dereferences the
caster and target ids of the spell result after checking only that the
result itself is non-null, so a result lacking either field throws
(Except.error). -/
def execAIAction (ext : Externals) (state : BattleState) (a : AiAction) :
    Except Unit BattleState :=
  match a with
  | .deploy creature? cost =>
    match creature? with
    | none => .ok state
    | some c =>
      let deployCost := jsOr cost 3
      if state.enemyEnergy < deployCost then .ok state
      else if state.enemyField.any (fun x => x.id == c.id) then .ok state
      else .ok { state with
        enemyHand := (state.enemyHand.filter (fun x => x.id != c.id)),
        enemyField := (state.enemyField ++ [c]),
        enemyEnergy := (max 0 (state.enemyEnergy - deployCost)),
        consecutiveActions := ({ state.consecutiveActions with
          enemy := state.consecutiveActions.enemy + 1 }),
        energyMomentum := ({ state.energyMomentum with
          enemy := state.energyMomentum.enemy + deployCost }) }
  | .attack attacker? target? cost =>
    match attacker?, target? with
    | some atk, some tgt =>
      let attackCost := jsOr cost 2
      if state.enemyEnergy < attackCost then .ok state
      else
        let ar := ext.processAttack atk tgt
        .ok { state with
          enemyEnergy := (max 0 (state.enemyEnergy - attackCost)),
          consecutiveActions := ({ state.consecutiveActions with
            enemy := state.consecutiveActions.enemy + 1 }),
          energyMomentum := ({ state.energyMomentum with
            enemy := state.energyMomentum.enemy + attackCost }),
          playerField := ((state.playerField.map (fun c =>
            if c.id == ar.updatedDefender.id then ar.updatedDefender else c)).filter alive),
          enemyField := (state.enemyField.map (fun c =>
            if c.id == ar.updatedAttacker.id then ar.updatedAttacker else c)) }
    | _, _ => .ok state
  | .defend creature? cost =>
    match creature? with
    | none => .ok state
    | some c =>
      let defendCost := jsOr cost 1
      if state.enemyEnergy < defendCost then .ok state
      else
        let updatedDefender := ext.defendCreature c (some state.difficulty)
        .ok { state with
          enemyEnergy := (max 0 (state.enemyEnergy - defendCost)),
          consecutiveActions := ({ state.consecutiveActions with
            enemy := state.consecutiveActions.enemy + 1 }),
          enemyField := (state.enemyField.map (fun c' =>
            if c'.id == updatedDefender.id then updatedDefender else c')) }
  | .useTool tool? target? _ =>
    match tool?, target? with
    | some tool, some tgt =>
      match ext.applyTool tgt tool state.difficulty with
      | none => .ok state
      | some r =>
        match r.updatedCreature with
        | none => .ok state
        | some uc =>
          let isEnemyTarget := state.enemyField.any (fun c => c.id == tgt.id)
          .ok { state with
            enemyField := (if isEnemyTarget then
                state.enemyField.map (fun c => if c.id == uc.id then uc else c)
              else state.enemyField),
            playerField := (if isEnemyTarget then state.playerField
              else state.playerField.map (fun c => if c.id == uc.id then uc else c)),
            enemyTools := (state.enemyTools.filter (fun t => t.id != tool.id)),
            consecutiveActions := ({ state.consecutiveActions with
              enemy := state.consecutiveActions.enemy + 1 }) }
    | _, _ => .ok state
  | .useSpell spell? caster? target? cost =>
    match spell?, caster?, target? with
    | some spell, some caster, some tgt =>
      let spellCost := jsOr cost SPELL_ENERGY_COST
      if state.enemyEnergy < spellCost then .ok state
      else
        match ext.applySpell caster tgt spell state.difficulty with
        | none => .ok state
        | some r =>
          match r.updatedCaster, r.updatedTarget with
          | some uc, some ut =>
            .ok { state with
              enemyEnergy := (max 0 (state.enemyEnergy - spellCost)),
              consecutiveActions := ({ state.consecutiveActions with
                enemy := state.consecutiveActions.enemy + 1 }),
              energyMomentum := ({ state.energyMomentum with
                enemy := state.energyMomentum.enemy + spellCost }),
              enemyField := ((state.enemyField.map (fun c =>
                if c.id == uc.id then uc
                else if c.id == ut.id then ut
                else c)).filter alive),
              playerField := ((state.playerField.map (fun c =>
                if c.id == ut.id then ut else c)).filter alive),
              enemySpells := (state.enemySpells.filter (fun sp => sp.id != spell.id)) }
          | _, _ => .error ()
    | _, _, _ => .ok state
  | .other _ => .ok state

/-- One step of the EXECUTE_AI_ACTION_SEQUENCE loop: the step is skipped
(continue) when enemy energy is below the descriptor's cost read as
energyCost-or-0, or when the deployment is a duplicate; only deploy,
attack and defend have cases, all without streak/momentum accounting;
energy is reduced by the raw energyCost.  Required creature fields are
dereferenced without a presence guard, so an absent field throws. -/
def aiSequenceStep (ext : Externals) (state : BattleState) (a : AiAction) :
    Except Unit BattleState :=
  if state.enemyEnergy < jsOr a.energyCost 0 then .ok state
  else
    match a with
    | .deploy creature? cost =>
      match creature? with
      | none => .error ()
      | some c =>
        if state.enemyField.any (fun x => x.id == c.id) then .ok state
        else .ok { state with
          enemyHand := (state.enemyHand.filter (fun x => x.id != c.id)),
          enemyField := (state.enemyField ++ [c]),
          enemyEnergy := (max 0 (state.enemyEnergy - cost)) }
    | .attack attacker? target? cost =>
      match attacker?, target? with
      | some atk, some tgt =>
        let ar := ext.processAttack atk tgt
        .ok { state with
          enemyEnergy := (max 0 (state.enemyEnergy - cost)),
          playerField := ((state.playerField.map (fun c =>
            if c.id == ar.updatedDefender.id then ar.updatedDefender else c)).filter alive),
          enemyField := (state.enemyField.map (fun c =>
            if c.id == ar.updatedAttacker.id then ar.updatedAttacker else c)) }
      | _, _ => .error ()
    | .defend creature? cost =>
      match creature? with
      | none => .error ()
      | some c =>
        let updatedDefender := ext.defendCreature c none
        .ok { state with
          enemyEnergy := (max 0 (state.enemyEnergy - cost)),
          enemyField := (state.enemyField.map (fun c' =>
            if c'.id == updatedDefender.id then updatedDefender else c')) }
    | _ => .ok state

/-- The EXECUTE_AI_ACTION_SEQUENCE loop over the descriptor list. -/
def runAiSequence (ext : Externals) (state : BattleState) :
    List AiAction → Except Unit BattleState
  | [] => .ok state
  | a :: rest =>
    match aiSequenceStep ext state a with
    | .error e => .error e
    | .ok s2 => runAiSequence ext s2 rest

/-- The creature map applied by COMBO_BONUS: +2 physicalAttack and
+2 magicalAttack. -/
def comboBoost (c : Creature) : Creature :=
  { c with battleStats := ({ c.battleStats with
      physicalAttack := c.battleStats.physicalAttack + 2,
      magicalAttack := c.battleStats.magicalAttack + 2 }) }

/-- The battle state reducer (battleReducer of the source), translated
case by case.  The result is Except Unit BattleState: .error () marks a
thrown TypeError (see the USE_TOOL and AI useSpell cases), every other
branch returns .ok. -/
def battleReducer (ext : Externals) (state : BattleState) (action : Action) :
    Except Unit BattleState :=
  match action with
  | .startBattle playerDeck playerHand playerTools playerSpells
      enemyDeck enemyHand enemyTools enemySpells difficulty =>
    .ok { state with
      gameState := "battle",
      playerDeck := playerDeck,
      playerHand := playerHand,
      playerField := [],
      enemyDeck := enemyDeck,
      enemyHand := enemyHand,
      enemyField := [],
      playerEnergy := 10,
      enemyEnergy := 10,
      turn := 1,
      activePlayer := "player",
      battleLog := ([{
        turn := 1,
        message := ("Battle started! Difficulty: " ++ capitalizeJs difficulty ++
          " - Prepare for intense combat!") }]),
      playerTools := playerTools,
      playerSpells := playerSpells,
      enemyTools := enemyTools,
      enemySpells := enemySpells,
      difficulty := difficulty,
      consecutiveActions := { player := 0, enemy := 0 },
      energyMomentum := { player := 0, enemy := 0 } }
  | .deployCreature creature cost =>
    let deployCost := deployEnergyCost creature cost
    if state.playerEnergy < deployCost then .ok state
    else .ok { state with
      playerHand := (state.playerHand.filter (fun x => x.id != creature.id)),
      playerField := (state.playerField ++ [creature]),
      playerEnergy := (max 0 (state.playerEnergy - deployCost)),
      consecutiveActions := ({ state.consecutiveActions with
        player := state.consecutiveActions.player + 1 }),
      energyMomentum := ({ state.energyMomentum with
        player := state.energyMomentum.player + deployCost }) }
  | .enemyDeployCreature creature cost =>
    let deployCost := deployEnergyCost creature cost
    if state.enemyEnergy < deployCost then .ok state
    else if state.enemyField.any (fun x => x.id == creature.id) then .ok state
    else .ok { state with
      enemyHand := (state.enemyHand.filter (fun x => x.id != creature.id)),
      enemyField := (state.enemyField ++ [creature]),
      enemyEnergy := (max 0 (state.enemyEnergy - deployCost)),
      consecutiveActions := ({ state.consecutiveActions with
        enemy := state.consecutiveActions.enemy + 1 }),
      energyMomentum := ({ state.energyMomentum with
        enemy := state.energyMomentum.enemy + deployCost }) }
  | .updateCreature creature isPlayer =>
    if isPlayer then
      .ok { state with
        playerField := (state.playerField.map (fun c =>
          if c.id == creature.id then creature else c)) }
    else
      .ok { state with
        enemyField := (state.enemyField.map (fun c =>
          if c.id == creature.id then creature else c)) }
  | .attack attackResult cost =>
    let isPlayerAttacker := state.playerField.any (fun c => c.id == attackResult.updatedAttacker.id)
    let isPlayerDefender := state.playerField.any (fun c => c.id == attackResult.updatedDefender.id)
    if isPlayerAttacker ∧ state.playerEnergy < cost then .ok state
    else if ¬isPlayerAttacker ∧ state.enemyEnergy < cost then .ok state
    else .ok { state with
      playerEnergy := (if isPlayerAttacker then max 0 (state.playerEnergy - cost)
        else state.playerEnergy),
      enemyEnergy := (if !isPlayerAttacker then max 0 (state.enemyEnergy - cost)
        else state.enemyEnergy),
      playerField := ((state.playerField.map (fun c =>
        if isPlayerAttacker && (c.id == attackResult.updatedAttacker.id) then
          attackResult.updatedAttacker
        else if isPlayerDefender && (c.id == attackResult.updatedDefender.id) then
          attackResult.updatedDefender
        else c)).filter alive),
      enemyField := ((state.enemyField.map (fun c =>
        if (!isPlayerAttacker) && (c.id == attackResult.updatedAttacker.id) then
          attackResult.updatedAttacker
        else if (!isPlayerDefender) && (c.id == attackResult.updatedDefender.id) then
          attackResult.updatedDefender
        else c)).filter alive),
      consecutiveActions := (if isPlayerAttacker then
          { state.consecutiveActions with player := state.consecutiveActions.player + 1 }
        else
          { state.consecutiveActions with enemy := state.consecutiveActions.enemy + 1 }),
      energyMomentum := (if isPlayerAttacker then
          { state.energyMomentum with player := state.energyMomentum.player + cost }
        else
          { state.energyMomentum with enemy := state.energyMomentum.enemy + cost }) }
  | .useTool result tool isPlayerTool isEnemyTool =>
    -- JS evaluates the membership scan over playerField, whose callback
    -- dereferences action.result.updatedCreature.id, before the
    -- malformed-result guard: with a non-empty playerField and a
    -- malformed result the callback throws; with an empty playerField the
    -- callback never runs and the guard returns the state unchanged.
    match result with
    | none => if state.playerField.isEmpty then .ok state else .error ()
    | some r =>
      match r.updatedCreature with
      | none => if state.playerField.isEmpty then .ok state else .error ()
      | some uc =>
        let isPlayerToolTarget := state.playerField.any (fun c => c.id == uc.id)
        .ok { state with
          playerField := (if isPlayerToolTarget then
              state.playerField.map (fun c => if c.id == uc.id then uc else c)
            else state.playerField),
          enemyField := (if !isPlayerToolTarget then
              state.enemyField.map (fun c => if c.id == uc.id then uc else c)
            else state.enemyField),
          playerTools := (if isPlayerTool then
              state.playerTools.filter (fun t => t.id != tool.id)
            else state.playerTools),
          enemyTools := (if isEnemyTool then
              state.enemyTools.filter (fun t => t.id != tool.id)
            else state.enemyTools),
          consecutiveActions := (if isPlayerTool then
              { state.consecutiveActions with player := state.consecutiveActions.player + 1 }
            else
              { state.consecutiveActions with enemy := state.consecutiveActions.enemy + 1 }) }
  | .useSpell spellResult? spell cost isEnemySpell =>
    match spellResult? with
    | none => .ok state
    | some r =>
      match r.updatedCaster, r.updatedTarget with
      | some uc, some ut =>
        let isPlayerCaster := state.playerField.any (fun c => c.id == uc.id)
        let isPlayerTarget := state.playerField.any (fun c => c.id == ut.id)
        let spellCost := jsOr cost SPELL_ENERGY_COST
        if isPlayerCaster ∧ state.playerEnergy < spellCost then .ok state
        else if ¬isPlayerCaster ∧ state.enemyEnergy < spellCost then .ok state
        else .ok { state with
          playerField := ((state.playerField.map (fun c =>
            if isPlayerCaster && (c.id == uc.id) then uc
            else if isPlayerTarget && (c.id == ut.id) then ut
            else c)).filter alive),
          enemyField := ((state.enemyField.map (fun c =>
            if (!isPlayerCaster) && (c.id == uc.id) then uc
            else if (!isPlayerTarget) && (c.id == ut.id) then ut
            else c)).filter alive),
          playerEnergy := (if isPlayerCaster then max 0 (state.playerEnergy - spellCost)
            else state.playerEnergy),
          enemyEnergy := (if !isPlayerCaster then max 0 (state.enemyEnergy - spellCost)
            else state.enemyEnergy),
          playerSpells := (if isPlayerCaster then
              state.playerSpells.filter (fun sp => sp.id != spell.id)
            else state.playerSpells),
          enemySpells := (if isEnemySpell then
              state.enemySpells.filter (fun sp => sp.id != spell.id)
            else state.enemySpells),
          consecutiveActions := (if isPlayerCaster then
              { state.consecutiveActions with player := state.consecutiveActions.player + 1 }
            else
              { state.consecutiveActions with enemy := state.consecutiveActions.enemy + 1 }),
          energyMomentum := (if isPlayerCaster then
              { state.energyMomentum with player := state.energyMomentum.player + spellCost }
            else
              { state.energyMomentum with enemy := state.energyMomentum.enemy + spellCost }) }
      | _, _ => .ok state
  | .defend updatedCreature =>
    let isPlayerDefending := state.playerField.any (fun c => c.id == updatedCreature.id)
    if isPlayerDefending ∧ state.playerEnergy < DEFEND_ENERGY_COST then .ok state
    else if ¬isPlayerDefending ∧ state.enemyEnergy < DEFEND_ENERGY_COST then .ok state
    else .ok { state with
      playerEnergy := (if isPlayerDefending then
          max 0 (state.playerEnergy - DEFEND_ENERGY_COST)
        else state.playerEnergy),
      enemyEnergy := (if !isPlayerDefending then
          max 0 (state.enemyEnergy - DEFEND_ENERGY_COST)
        else state.enemyEnergy),
      playerField := (if isPlayerDefending then
          state.playerField.map (fun c =>
            if c.id == updatedCreature.id then updatedCreature else c)
        else state.playerField),
      enemyField := (if !isPlayerDefending then
          state.enemyField.map (fun c =>
            if c.id == updatedCreature.id then updatedCreature else c)
        else state.enemyField),
      consecutiveActions := (if isPlayerDefending then
          { state.consecutiveActions with player := state.consecutiveActions.player + 1 }
        else
          { state.consecutiveActions with enemy := state.consecutiveActions.enemy + 1 }) }
  | .spendEnergy player amount =>
    if player = "player" then
      .ok { state with playerEnergy := (max 0 (state.playerEnergy - amount)) }
    else
      .ok { state with enemyEnergy := (max 0 (state.enemyEnergy - amount)) }
  | .drawCard player =>
    if player = "player" then
      match state.playerDeck with
      | [] => .ok state
      | drawnCard :: rest =>
        .ok { state with
          playerHand := (state.playerHand ++ [drawnCard]),
          playerDeck := rest }
    else
      match state.enemyDeck with
      | [] => .ok state
      | drawnCard :: rest =>
        .ok { state with
          enemyHand := (state.enemyHand ++ [drawnCard]),
          enemyDeck := rest }
  | .regenerateEnergy playerRegen enemyRegen =>
    let playerMomentumBonus := state.energyMomentum.player / 10
    let enemyMomentumBonus := state.energyMomentum.enemy / 10
    .ok { state with
      playerEnergy := (min MAX_ENERGY
        (state.playerEnergy + playerRegen + playerMomentumBonus)),
      enemyEnergy := (min MAX_ENERGY
        (state.enemyEnergy + enemyRegen + enemyMomentumBonus)),
      energyMomentum := { player := 0, enemy := 0 } }
  | .applyEnergyDecay =>
    .ok (applyEnergyDecayTransition state)
  | .setActivePlayer player =>
    .ok { state with
      activePlayer := player,
      consecutiveActions := { player := 0, enemy := 0 } }
  | .incrementTurn =>
    .ok { state with turn := state.turn + 1 }
  | .setGameState gameState =>
    .ok { state with gameState := gameState }
  | .applyOngoingEffects updatedPlayerField? updatedEnemyField? =>
    let processedPlayerField := state.playerField.map processCreatureEffects
    let processedEnemyField := state.enemyField.map processCreatureEffects
    .ok { state with
      playerField := (updatedPlayerField?.getD (processedPlayerField.filter alive)),
      enemyField := (updatedEnemyField?.getD (processedEnemyField.filter alive)) }
  | .addLog message =>
    .ok { state with
      battleLog := (state.battleLog ++ [{ turn := state.turn, message := message }]) }
  | .executeAIAction aiAction =>
    execAIAction ext state aiAction
  | .executeAIActionSequence actionSequence =>
    runAiSequence ext state actionSequence
  | .comboBonus player =>
    let comboLevel :=
      if player = "player" then state.consecutiveActions.player
      else state.consecutiveActions.enemy
    if 3 ≤ comboLevel then
      if player = "player" then
        .ok { state with playerField := (state.playerField.map comboBoost) }
      else
        .ok { state with enemyField := (state.enemyField.map comboBoost) }
    else .ok state
  | .unknown _ =>
    .ok state

/-- The spec-side reading of ExecuteAIActionSequence (claim C6): fold the
descriptor list through the single-action logic (EXECUTE_AI_ACTION), each
step individually precondition-checked. -/
def specFoldAIActions (ext : Externals) (state : BattleState) :
    List AiAction → Except Unit BattleState
  | [] => .ok state
  | a :: rest =>
    match execAIAction ext state a with
    | .error e => .error e
    | .ok s2 => specFoldAIActions ext s2 rest

/-- The initial useReducer state of BattleGame. -/
def initialState : BattleState :=
  { gameState := "setup",
    turn := 1,
    activePlayer := "player",
    difficulty := "easy",
    playerDeck := [],
    playerHand := [],
    playerField := [],
    playerEnergy := 10,
    playerTools := [],
    playerSpells := [],
    enemyDeck := [],
    enemyHand := [],
    enemyField := [],
    enemyEnergy := 10,
    enemyTools := [],
    enemySpells := [],
    battleLog := [],
    consecutiveActions := { player := 0, enemy := 0 },
    energyMomentum := { player := 0, enemy := 0 } }

/-- Nonnegativity of the cost-like parameters of one AI action descriptor,
as used by the EXECUTE_AI_ACTION branch. -/
def NonnegAiAction : AiAction → Prop
  | .deploy _ cost => 0 ≤ jsOr cost 3
  | .attack _ _ cost => 0 ≤ jsOr cost 2
  | .defend _ cost => 0 ≤ jsOr cost 1
  | .useTool _ _ _ => True
  | .useSpell _ _ _ cost => 0 ≤ jsOr cost SPELL_ENERGY_COST
  | .other _ => True

/-- Nonnegativity of the cost/regen/amount parameters carried by an
action.  Every dispatch in the source satisfies this: the costs are the
positive constants 1, 2, 4 and 5..8, and the regen amounts are sums of
nonnegative parts. -/
def NonnegAction : Action → Prop
  | .deployCreature c cost => 0 ≤ deployEnergyCost c cost
  | .enemyDeployCreature c cost => 0 ≤ deployEnergyCost c cost
  | .attack _ cost => 0 ≤ cost
  | .useSpell _ _ cost _ => 0 ≤ jsOr cost SPELL_ENERGY_COST
  | .regenerateEnergy playerRegen enemyRegen => 0 ≤ playerRegen ∧ 0 ≤ enemyRegen
  | .spendEnergy _ amount => 0 ≤ amount
  | .executeAIAction a => NonnegAiAction a
  | .executeAIActionSequence l => ∀ a ∈ l, 0 ≤ a.energyCost
  | _ => True

/-- Reachability of a battle state: the initial useReducer state, closed
under reducer transitions whose cost parameters are nonnegative. -/
inductive Reachable (ext : Externals) : BattleState → Prop where
  | init : Reachable ext initialState
  | step {s s' : BattleState} {a : Action} :
      Reachable ext s → NonnegAction a →
      battleReducer ext s a = Except.ok s' → Reachable ext s'

/-- The field-shape predicate of claim C1: at most 4 creatures per field
and no creature with nonpositive health on either field. -/
def fieldInvariant (s : BattleState) : Prop :=
  s.playerField.length ≤ 4 ∧ s.enemyField.length ≤ 4 ∧
  (∀ c ∈ s.playerField, 0 < c.currentHealth) ∧
  (∀ c ∈ s.enemyField, 0 < c.currentHealth)

instance (s : BattleState) : Decidable (fieldInvariant s) := by
  unfold fieldInvariant
  exact inferInstance

/-- The energy-bounds predicate of claim C3. -/
def EnergyBounds (s : BattleState) : Prop :=
  0 ≤ s.playerEnergy ∧ s.playerEnergy ≤ MAX_ENERGY ∧
  0 ≤ s.enemyEnergy ∧ s.enemyEnergy ≤ MAX_ENERGY

/-- Auxiliary inductive invariant: energy bounds plus nonnegative
momentum accumulators (momentum feeds back into regeneration). -/
def EnergyAux (s : BattleState) : Prop :=
  EnergyBounds s ∧ 0 ≤ s.energyMomentum.player ∧ 0 ≤ s.energyMomentum.enemy

/-- Trivial instantiation of the external collaborators, used for concrete
evaluations. -/
def trivialExternals : Externals :=
  { processAttack := (fun atk dfn =>
      { updatedAttacker := atk, updatedDefender := dfn, battleLog := "" }),
    defendCreature := fun c _ => c,
    applyTool := fun _ _ _ => none,
    applySpell := fun _ _ _ _ => none }

/-- A minimal battle-ready creature for concrete test states. -/
def mkCreature (id : String) (hp : Int) : Creature :=
  { id := id,
    species_name := id,
    battleStats := ({
      maxHealth := 20,
      physicalAttack := 5,
      magicalAttack := 5,
      energyCost := 5 }),
    currentHealth := hp,
    activeEffects := [],
    isDefending := false }


/-
  Concrete states, creatures and items used by the witnesses and
  counterexamples below.
-/

/-- A battle state with one creature on the player's field. -/
def c2State : BattleState := { initialState with playerField := [mkCreature ("p1") 10] }

/-- A concrete tool item. -/
def c2Tool : Item := { id := "t1", name := "Heal" }

/-- A state in which the player exceeds the decay threshold and the enemy
sits exactly on it. -/
def c5State : BattleState := { initialState with playerEnergy := 20, enemyEnergy := 10 }

/-- A state in which only the enemy exceeds the decay threshold. -/
def c5wState : BattleState := { initialState with playerEnergy := 8, enemyEnergy := 12 }

/-- A state with a 3-action player streak and one fielded creature. -/
def c7wState : BattleState :=
  { initialState with
    playerField := [mkCreature ("p1") 10],
    consecutiveActions := { player := 3, enemy := 0 } }

/-- The initial state, whose player hand is empty. -/
def c4State : BattleState := initialState

/-- The state DEPLOY_CREATURE produces from `c4State` for a creature that
is not in the hand: the field grows although the hand cannot shrink. -/
def c4After : BattleState :=
  { initialState with
    playerField := [mkCreature ("p9") 10],
    playerEnergy := 5,
    consecutiveActions := { player := 1, enemy := 0 },
    energyMomentum := { player := 5, enemy := 0 } }

/-- A state holding exactly one copy of a creature in the player hand. -/
def c4wState : BattleState := { initialState with playerHand := [mkCreature ("p1") 10] }

/-- The state DEPLOY_CREATURE produces from `c4wState`. -/
def c4wAfter : BattleState :=
  { c4wState with
    playerHand := [],
    playerField := [mkCreature ("p1") 10],
    playerEnergy := 5,
    consecutiveActions := { player := 1, enemy := 0 },
    energyMomentum := { player := 5, enemy := 0 } }

/-- A state holding one creature in the enemy hand. -/
def c6State : BattleState := { initialState with enemyHand := [mkCreature ("e1") 10] }

/-- A well-formed AI deploy descriptor for the creature of `c6State`. -/
def c6Action : AiAction := AiAction.deploy (some (mkCreature ("e1") 10)) 5

/-- A one-tick effect dealing 5 damage and granting +1 physicalAttack. -/
def e8w : Effect :=
  { name := "Poison", duration := 1, healthEffect := -5,
    statEffect := [("physicalAttack", 1)] }

/-- A creature carrying exactly the effect `e8w`. -/
def c8w : Creature := { mkCreature ("w8") 12 with activeEffects := [some e8w] }

/-- A state whose enemy field is already full (4 living creatures). -/
def c1State : BattleState :=
  { initialState with enemyField :=
      ([mkCreature ("e1") 10, mkCreature ("e2") 10, mkCreature ("e3") 10,
        mkCreature ("e4") 10]) }

/-- The state ENEMY_DEPLOY_CREATURE produces from `c1State`: a fifth
creature lands on the enemy field. -/
def c1After : BattleState :=
  { c1State with
    enemyField := (c1State.enemyField ++ [mkCreature ("e5") 10]),
    enemyEnergy := 5,
    consecutiveActions := { player := 0, enemy := 1 },
    energyMomentum := { player := 0, enemy := 5 } }

/-- A state holding one living creature in the enemy hand, with room on
the enemy field. -/
def c1wState : BattleState := { initialState with enemyHand := [mkCreature ("e1") 10] }

/-- The state ENEMY_DEPLOY_CREATURE produces from `c1wState`. -/
def c1wAfter : BattleState :=
  { c1wState with
    enemyHand := [],
    enemyField := [mkCreature ("e1") 10],
    enemyEnergy := 5,
    consecutiveActions := { player := 0, enemy := 1 },
    energyMomentum := { player := 0, enemy := 5 } }

/-- The state SPEND_ENERGY(player, 3) produces from the initial state. -/
def c3wAfter : BattleState := { initialState with playerEnergy := 7 }

/-
  Helper lemmas shared by the claim proofs.
-/

theorem length_filter_bne_add_countP (l : List Creature) (cid : String) :
    (l.filter (fun x => x.id != cid)).length + l.countP (fun x => x.id == cid) = l.length := by
  induction l with
  | nil => rfl
  | cons a t ih =>
    by_cases ha : (a.id == cid) = true
    · have hq : (a.id != cid) = false := by simp [bne, ha]
      simp only [List.filter_cons, List.countP_cons, ha, hq, if_true, if_false,
        Bool.false_eq_true, List.length_cons]
      omega
    · have ha2 : (a.id == cid) = false := by simp at ha; simp [ha]
      have hq : (a.id != cid) = true := by simp [bne, ha2]
      simp only [List.filter_cons, List.countP_cons, ha2, hq, if_true, if_false,
        Bool.false_eq_true, List.length_cons]
      omega

theorem statsUnchangedOfNoEffects (x : Creature) (h : x.activeEffects = []) :
    (processCreatureEffects x).battleStats = x.battleStats := by
  simp [processCreatureEffects, tickEffects, h, List.foldl]

theorem energyAux_execAI (ext : Externals) {s s2 : BattleState} {a : AiAction}
    (hs : EnergyAux s) (ha : NonnegAiAction a)
    (h : execAIAction ext s a = Except.ok s2) : EnergyAux s2 := by
  cases a
  all_goals (
    simp only [execAIAction] at h
    repeat' split at h
    all_goals (first
      | (exact Except.noConfusion h)
      | (have h2 := Except.ok.inj h
         subst h2
         simp only [EnergyAux, EnergyBounds, MAX_ENERGY, NonnegAiAction,
           SPELL_ENERGY_COST] at *
         omega)))

theorem energyAux_seqStep (ext : Externals) {s s2 : BattleState} {a : AiAction}
    (hs : EnergyAux s) (ha : 0 ≤ a.energyCost)
    (h : aiSequenceStep ext s a = Except.ok s2) : EnergyAux s2 := by
  simp only [aiSequenceStep] at h
  repeat' split at h
  all_goals (first
    | (exact Except.noConfusion h)
    | (have h2 := Except.ok.inj h
       subst h2
       simp only [EnergyAux, EnergyBounds, MAX_ENERGY, AiAction.energyCost] at *
       omega))

theorem energyAux_runSeq (ext : Externals) {s s2 : BattleState} {l : List AiAction}
    (hs : EnergyAux s) (ha : ∀ x ∈ l, 0 ≤ x.energyCost)
    (h : runAiSequence ext s l = Except.ok s2) : EnergyAux s2 := by
  induction l generalizing s with
  | nil =>
    simp only [runAiSequence] at h
    rw [← Except.ok.inj h]
    exact hs
  | cons a t ih =>
    simp only [runAiSequence] at h
    cases hstep : aiSequenceStep ext s a with
    | error e =>
      rw [hstep] at h
      exact Except.noConfusion h
    | ok smid =>
      rw [hstep] at h
      exact ih (energyAux_seqStep ext hs (ha a (List.mem_cons_self a t)) hstep)
        (fun x hx => ha x (List.mem_cons_of_mem a hx)) h

theorem energyAux_step (ext : Externals) {s s2 : BattleState} {a : Action}
    (hs : EnergyAux s) (ha : NonnegAction a)
    (h : battleReducer ext s a = Except.ok s2) : EnergyAux s2 := by
  cases a
  case executeAIAction ai =>
    exact energyAux_execAI ext hs ha h
  case executeAIActionSequence l =>
    exact energyAux_runSeq ext hs ha h
  all_goals (
    simp only [battleReducer, applyEnergyDecayTransition] at h
    repeat' split at h
    all_goals (first
      | (exact Except.noConfusion h)
      | (have h2 := Except.ok.inj h
         subst h2
         simp only [EnergyAux, EnergyBounds, MAX_ENERGY, NonnegAction,
           DEFEND_ENERGY_COST, SPELL_ENERGY_COST] at *
         omega)))

/-
  The claims.
-/

/-- Claim C1 (counterexample): the claim says every reducer transition
preserves "each field has at most 4 creatures and no creature with
currentHealth ≤ 0".  At the concrete state `c1State`, whose enemy field
already holds 4 living creatures, ENEMY_DEPLOY_CREATURE of a fifth
creature succeeds and produces a 5-creature enemy field: the reducer
itself enforces no field-size cap (the cap check lives in the caller
deployCreature, and only for the player's side). -/
theorem claim1_counterexample :
    fieldInvariant c1State ∧
    battleReducer trivialExternals c1State
      (Action.enemyDeployCreature (mkCreature ("e5") 10) 5) = Except.ok c1After ∧
    ¬ fieldInvariant c1After :=
  ⟨by decide, rfl, by decide⟩

/-- Claim C1 (amended): the three named transitions preserve the field
predicate only under the side conditions the reducer does not itself
enforce: enemy deployment requires room on the enemy field (fewer than 4
creatures) and a living deployed creature; UpdateCreature requires the
replacement creature to be alive (it is stored without any health
filter); the AI-executed attack requires the collaborator-updated
attacker to be alive, because the reducer filters casualties only from
the player field, not from the enemy field holding the attacker. -/
theorem claim1_amended :
    (∀ (ext : Externals) (s : BattleState) (c : Creature) (cost : Int) (s2 : BattleState),
      fieldInvariant s → 0 < c.currentHealth → s.enemyField.length < 4 →
      battleReducer ext s (Action.enemyDeployCreature c cost) = Except.ok s2 →
      fieldInvariant s2) ∧
    (∀ (ext : Externals) (s : BattleState) (c : Creature) (isPlayer : Bool)
        (s2 : BattleState),
      fieldInvariant s → 0 < c.currentHealth →
      battleReducer ext s (Action.updateCreature c isPlayer) = Except.ok s2 →
      fieldInvariant s2) ∧
    (∀ (ext : Externals) (s : BattleState) (atk tgt : Creature) (cost : Int)
        (s2 : BattleState),
      fieldInvariant s →
      0 < (ext.processAttack atk tgt).updatedAttacker.currentHealth →
      battleReducer ext s
        (Action.executeAIAction (AiAction.attack (some atk) (some tgt) cost)) =
        Except.ok s2 →
      fieldInvariant s2) := by
  refine ⟨?_, ?_, ?_⟩
  · intro ext s c cost s2 hInv hAlive hLen he
    simp only [battleReducer] at he
    split at he
    · rw [← Except.ok.inj he]; exact hInv
    · split at he
      · rw [← Except.ok.inj he]; exact hInv
      · obtain ⟨h1, h2, h3, h4⟩ := hInv
        have hs2 := Except.ok.inj he
        subst hs2
        refine ⟨h1, ?_, h3, ?_⟩
        · show (s.enemyField ++ [c]).length ≤ 4
          rw [List.length_append]
          simpa using by omega
        · intro x hx
          rcases List.mem_append.mp hx with hx | hx
          · exact h4 x hx
          · rw [List.mem_singleton] at hx
            subst hx
            exact hAlive
  · intro ext s c isPlayer s2 hInv hAlive he
    obtain ⟨h1, h2, h3, h4⟩ := hInv
    simp only [battleReducer] at he
    split at he
    · have hs2 := Except.ok.inj he
      subst hs2
      refine ⟨?_, h2, ?_, h4⟩
      · show (s.playerField.map _).length ≤ 4
        rw [List.length_map]; exact h1
      · intro x hx
        obtain ⟨y, hy, rfl⟩ := List.mem_map.mp hx
        split
        · exact hAlive
        · exact h3 y hy
    · have hs2 := Except.ok.inj he
      subst hs2
      refine ⟨h1, ?_, h3, ?_⟩
      · show (s.enemyField.map _).length ≤ 4
        rw [List.length_map]; exact h2
      · intro x hx
        obtain ⟨y, hy, rfl⟩ := List.mem_map.mp hx
        split
        · exact hAlive
        · exact h4 y hy
  · intro ext s atk tgt cost s2 hInv hAtk he
    obtain ⟨h1, h2, h3, h4⟩ := hInv
    simp only [battleReducer, execAIAction] at he
    split at he
    · rw [← Except.ok.inj he]; exact ⟨h1, h2, h3, h4⟩
    · have hs2 := Except.ok.inj he
      subst hs2
      refine ⟨?_, ?_, ?_, ?_⟩
      · show ((s.playerField.map _).filter _).length ≤ 4
        refine le_trans (List.length_filter_le _ _) ?_
        rw [List.length_map]; exact h1
      · show (s.enemyField.map _).length ≤ 4
        rw [List.length_map]; exact h2
      · intro x hx
        have hp := (List.mem_filter.mp hx).2
        simpa [alive] using hp
      · intro x hx
        obtain ⟨y, hy, rfl⟩ := List.mem_map.mp hx
        split
        · exact hAtk
        · exact h4 y hy

/-- Claim C1 (witness): the amended enemy-deploy preservation applied at
a concrete state with room on the field and a living creature. -/
theorem claim1_witness : fieldInvariant c1wAfter :=
  claim1_amended.1 trivialExternals c1wState (mkCreature ("e1") 10) 5 c1wAfter
    (by decide) (by decide) (by decide) (by rfl)

/-- Claim C2: the claim says a UseTool action with a malformed result
(result absent, or lacking updatedCreature) is a no-op with a diagnostic
and the reducer never raises.  In the source the membership scan over
playerField dereferences action.result.updatedCreature.id before the
malformed-result guard runs, so with a non-empty player field both
malformed shapes throw a TypeError (modelled as Except.error) instead of
returning the state: the code contradicts its own guard, which was
clearly intended to implement the documented fail-soft behavior. -/
theorem claim2_useTool_throws :
    battleReducer trivialExternals c2State (Action.useTool none c2Tool true false) =
      Except.error () ∧
    battleReducer trivialExternals c2State
      (Action.useTool (some { updatedCreature := none }) c2Tool true false) =
      Except.error () :=
  ⟨rfl, rfl⟩

/-- Claim C3: for every reachable battle state (initial useReducer state,
closed under reducer transitions with nonnegative cost/regen/amount
parameters), both sides' energy lies in [0, MAX_ENERGY]: every addition
is capped by Math.min(MAX_ENERGY, _) and every deduction is floored by
Math.max(0, _). -/
theorem claim3_energy_bounds (ext : Externals) (s : BattleState)
    (h : Reachable ext s) : EnergyBounds s := by
  have haux : EnergyAux s := by
    induction h with
    | init =>
      exact ⟨⟨by decide, by decide, by decide, by decide⟩, by decide, by decide⟩
    | step hr hna hred ih =>
      exact energyAux_step ext ih hna hred
  exact haux.1

/-- Claim C3 (witness): the bounds at a state one SPEND_ENERGY transition
away from the initial state. -/
theorem claim3_witness : EnergyBounds c3wAfter :=
  claim3_energy_bounds trivialExternals c3wAfter
    (Reachable.step (a := Action.spendEnergy ("player") 3) Reachable.init
      (show (0 : Int) ≤ 3 by decide) rfl)

/-- Claim C4 (counterexample): the claim says that whenever energy covers
the declared cost, DeployCreature removes exactly one creature from the
hand.  At the initial state (empty player hand) the deploy of a creature
that is not in the hand succeeds — the field grows by one and energy is
deducted — but the hand size is unchanged, because the removal is an
id-filter over the hand. -/
theorem claim4_counterexample :
    deployEnergyCost (mkCreature ("p9") 10) 5 ≤ c4State.playerEnergy ∧
    battleReducer trivialExternals c4State
      (Action.deployCreature (mkCreature ("p9") 10) 5) = Except.ok c4After ∧
    c4After.playerHand.length = c4State.playerHand.length ∧
    c4After.playerField.length = c4State.playerField.length + 1 :=
  ⟨by decide, rfl, by decide, by decide⟩

/-- Claim C4 (amended): with energy at least the resolved deploy cost,
DEPLOY_CREATURE filters the deployed id out of the hand (so the hand
shrinks by exactly one provided the deployed creature's id occurs exactly
once in the hand), appends the creature to the field, and deducts exactly
the resolved cost; with energy below the cost the state is returned
unchanged. -/
theorem claim4_amended (ext : Externals) (s : BattleState) (c : Creature) (cost : Int) :
    (deployEnergyCost c cost ≤ s.playerEnergy →
      ∀ s2, battleReducer ext s (Action.deployCreature c cost) = Except.ok s2 →
        s2.playerHand = s.playerHand.filter (fun x => x.id != c.id) ∧
        (s.playerHand.countP (fun x => x.id == c.id) = 1 →
          s2.playerHand.length + 1 = s.playerHand.length) ∧
        s2.playerField = s.playerField ++ [c] ∧
        s2.playerEnergy = s.playerEnergy - deployEnergyCost c cost) ∧
    (s.playerEnergy < deployEnergyCost c cost →
      battleReducer ext s (Action.deployCreature c cost) = Except.ok s) := by
  constructor
  · intro h s2 he
    simp only [battleReducer] at he
    rw [if_neg (not_lt.mpr h)] at he
    have hs2 := Except.ok.inj he
    subst hs2
    refine ⟨rfl, fun hcount => ?_, rfl, ?_⟩
    · have hlen := length_filter_bne_add_countP s.playerHand c.id
      rw [hcount] at hlen
      exact hlen
    · show max 0 (s.playerEnergy - deployEnergyCost c cost) = _
      omega
  · intro h
    simp only [battleReducer]
    rw [if_pos h]

/-- Claim C4 (witness): the amended statement applied at a state whose
hand holds exactly one copy of the deployed creature. -/
theorem claim4_witness : c4wAfter.playerHand.length + 1 = c4wState.playerHand.length :=
  ((claim4_amended trivialExternals c4wState (mkCreature ("p1") 10) 5).1
    (by decide) c4wAfter (by rfl)).2.1 (by decide)

/-- Claim C5 (counterexample): the claim says the decay step applies only
to sides whose energy exceeds 10, leaving a side with energy ≤ 10
unchanged.  At `c5State` (player 20, enemy 10) the decay step fires
because the player exceeds 10, and it then decays both sides: the enemy
drops from 10 to 9. -/
theorem claim5_counterexample :
    c5State.enemyEnergy = 10 ∧
    (applyEnergyDecay c5State).enemyEnergy = 9 ∧
    (applyEnergyDecay c5State).playerEnergy = 18 := by decide

/-- Claim C5 (amended): the decay step fires when either side's energy
exceeds 10 and then subtracts floor(energy × 0.1), floored at 0, from
both sides; a side with energy ≤ 9 is unchanged (its decay rounds to 0),
energy 20 becomes 18, but a side sitting exactly on 10 loses 1 whenever
the other side triggers the step. -/
theorem claim5_amended (s : BattleState) :
    ((10 < s.playerEnergy ∨ 10 < s.enemyEnergy) →
      applyEnergyDecay s = applyEnergyDecayTransition s ∧
      (applyEnergyDecay s).playerEnergy = max 0 (s.playerEnergy - s.playerEnergy / 10) ∧
      (applyEnergyDecay s).enemyEnergy = max 0 (s.enemyEnergy - s.enemyEnergy / 10)) ∧
    (¬(10 < s.playerEnergy ∨ 10 < s.enemyEnergy) → applyEnergyDecay s = s) ∧
    (0 ≤ s.playerEnergy → s.playerEnergy ≤ 9 →
      (applyEnergyDecay s).playerEnergy = s.playerEnergy) ∧
    (0 ≤ s.enemyEnergy → s.enemyEnergy ≤ 9 →
      (applyEnergyDecay s).enemyEnergy = s.enemyEnergy) ∧
    (s.playerEnergy = 20 → (applyEnergyDecay s).playerEnergy = 18) := by
  refine ⟨fun h => ?_, fun h => ?_, fun h0 h9 => ?_, fun h0 h9 => ?_, fun h20 => ?_⟩
  · simp only [applyEnergyDecay, if_pos h, applyEnergyDecayTransition]
    exact ⟨trivial, trivial, trivial⟩
  · simp only [applyEnergyDecay, if_neg h]
  · by_cases hg : 10 < s.playerEnergy ∨ 10 < s.enemyEnergy
    · simp only [applyEnergyDecay, if_pos hg, applyEnergyDecayTransition]
      omega
    · simp only [applyEnergyDecay, if_neg hg]
  · by_cases hg : 10 < s.playerEnergy ∨ 10 < s.enemyEnergy
    · simp only [applyEnergyDecay, if_pos hg, applyEnergyDecayTransition]
      omega
    · simp only [applyEnergyDecay, if_neg hg]
  · have hg : 10 < s.playerEnergy ∨ 10 < s.enemyEnergy := by omega
    simp only [applyEnergyDecay, if_pos hg, applyEnergyDecayTransition]
    omega

/-- Claim C5 (witness): a player side at 9 or below is untouched by the
decay step even while the enemy side triggers it. -/
theorem claim5_witness : (applyEnergyDecay c5wState).playerEnergy = 8 :=
  (claim5_amended c5wState).2.2.1 (by decide) (by decide)

/-- Claim C6 (counterexample): the claim says EXECUTE_AI_ACTION_SEQUENCE
equals folding each descriptor through the same per-action-type logic as
single-action execution, including streak/momentum increments.  For a
single well-formed deploy descriptor the two differ: the sequence branch
performs the hand/field/energy updates but omits the consecutiveActions
and energyMomentum increments that EXECUTE_AI_ACTION performs. -/
theorem claim6_counterexample :
    battleReducer trivialExternals c6State (Action.executeAIActionSequence [c6Action]) ≠
      specFoldAIActions trivialExternals c6State [c6Action] := by
  intro h
  exact absurd (congrArg (fun st => st.consecutiveActions.enemy) (Except.ok.inj h))
    (by decide)

/-- Claim C6 (amended): for a deploy descriptor with a nonzero cost
covered by the enemy's energy and a non-duplicate creature, the sequence
branch produces exactly the single-action result minus the streak and
momentum accounting: hand, field and energy updates agree, while
consecutiveActions and energyMomentum are left at their input values. -/
theorem claim6_amended (ext : Externals) (s : BattleState) (c : Creature) (cost : Int)
    (h0 : cost ≠ 0) (h1 : cost ≤ s.enemyEnergy)
    (h2 : s.enemyField.any (fun x => x.id == c.id) = false) :
    battleReducer ext s (Action.executeAIActionSequence [AiAction.deploy (some c) cost]) =
      Except.ok { s with
        enemyHand := (s.enemyHand.filter (fun x => x.id != c.id)),
        enemyField := (s.enemyField ++ [c]),
        enemyEnergy := (max 0 (s.enemyEnergy - cost)) } ∧
    battleReducer ext s (Action.executeAIAction (AiAction.deploy (some c) cost)) =
      Except.ok { s with
        enemyHand := (s.enemyHand.filter (fun x => x.id != c.id)),
        enemyField := (s.enemyField ++ [c]),
        enemyEnergy := (max 0 (s.enemyEnergy - cost)),
        consecutiveActions := ({ s.consecutiveActions with
          enemy := s.consecutiveActions.enemy + 1 }),
        energyMomentum := ({ s.energyMomentum with
          enemy := s.energyMomentum.enemy + cost }) } := by
  have hlt : ¬ s.enemyEnergy < cost := not_lt.mpr h1
  constructor
  · simp only [battleReducer, runAiSequence, aiSequenceStep, AiAction.energyCost, jsOr,
      if_neg h0, if_neg hlt, h2, Bool.false_eq_true, if_false]
  · simp only [battleReducer, execAIAction, jsOr, if_neg h0, if_neg hlt, h2,
      Bool.false_eq_true, if_false]

/-- Claim C6 (witness): the amended sequence-deploy equation at a
concrete state. -/
theorem claim6_witness :
    battleReducer trivialExternals c6State
      (Action.executeAIActionSequence [AiAction.deploy (some (mkCreature ("e1") 10)) 5]) =
      Except.ok { c6State with
        enemyHand := [],
        enemyField := [mkCreature ("e1") 10],
        enemyEnergy := 5 } := by
  rw [(claim6_amended trivialExternals c6State (mkCreature ("e1") 10) 5
    (by decide) (by decide) (by rfl)).1]
  rfl

/-- Claim C7: with a streak of at least 3, COMBO_BONUS for a side maps
+2 physicalAttack / +2 magicalAttack over exactly that side's field and
is a no-op below 3; SET_ACTIVE_PLAYER resets both sides' streak counters
to 0, not only the switching side's. -/
theorem claim7_combo_and_reset (ext : Externals) (s : BattleState) (p : String) :
    (3 ≤ s.consecutiveActions.player →
      battleReducer ext s (Action.comboBonus ("player")) =
        Except.ok { s with playerField := (s.playerField.map comboBoost) }) ∧
    (s.consecutiveActions.player < 3 →
      battleReducer ext s (Action.comboBonus ("player")) = Except.ok s) ∧
    (3 ≤ s.consecutiveActions.enemy →
      battleReducer ext s (Action.comboBonus ("enemy")) =
        Except.ok { s with enemyField := (s.enemyField.map comboBoost) }) ∧
    (s.consecutiveActions.enemy < 3 →
      battleReducer ext s (Action.comboBonus ("enemy")) = Except.ok s) ∧
    battleReducer ext s (Action.setActivePlayer p) =
      Except.ok { s with
        activePlayer := p,
        consecutiveActions := { player := 0, enemy := 0 } } := by
  have basePlayer : battleReducer ext s (Action.comboBonus ("player")) =
      (if 3 ≤ s.consecutiveActions.player then
        Except.ok { s with playerField := (s.playerField.map comboBoost) }
      else Except.ok s) := rfl
  have baseEnemy : battleReducer ext s (Action.comboBonus ("enemy")) =
      (if 3 ≤ s.consecutiveActions.enemy then
        Except.ok { s with enemyField := (s.enemyField.map comboBoost) }
      else Except.ok s) := rfl
  refine ⟨fun h => ?_, fun h => ?_, fun h => ?_, fun h => ?_, rfl⟩
  · rw [basePlayer, if_pos h]
  · rw [basePlayer, if_neg (not_le.mpr h)]
  · rw [baseEnemy, if_pos h]
  · rw [baseEnemy, if_neg (not_le.mpr h)]

/-- Claim C7 (witness): the combo bonus fires at a concrete state whose
player streak is 3. -/
theorem claim7_witness :
    battleReducer trivialExternals c7wState (Action.comboBonus ("player")) =
      Except.ok { c7wState with playerField := (c7wState.playerField.map comboBoost) } :=
  (claim7_combo_and_reset trivialExternals c7wState ("x")).1 (by decide)

/-- Claim C8: a creature carrying exactly one effect with duration 1 and
healthEffect -5 is processed by one Ongoing-Effects pass into a creature
whose health dropped by 5 (clamped below at 0), whose activeEffects list
is empty (the effect expired in the same pass), and whose battleStats
carry the statEffect deltas permanently — a second pass does not revert
them; and the APPLY_ONGOING_EFFECTS reducer case is exactly this
per-creature processing mapped over both fields followed by the removal
of dead creatures. -/
theorem claim8_effect_expiry (c : Creature) (e : Effect)
    (hfx : c.activeEffects = [some e]) (hdur : e.duration = 1)
    (hhe : e.healthEffect = -5) (h0 : 0 ≤ c.currentHealth)
    (hm : c.currentHealth ≤ c.battleStats.maxHealth) :
    (processCreatureEffects c).currentHealth = max 0 (c.currentHealth - 5) ∧
    (processCreatureEffects c).activeEffects = [] ∧
    (processCreatureEffects c).battleStats =
      e.statEffect.foldl (fun bs sv => applyStatDelta bs sv.1 sv.2) c.battleStats ∧
    (processCreatureEffects (processCreatureEffects c)).battleStats =
      (processCreatureEffects c).battleStats ∧
    (∀ (ext : Externals) (s : BattleState),
      battleReducer ext s (Action.applyOngoingEffects none none) =
        Except.ok { s with
          playerField := ((s.playerField.map processCreatureEffects).filter alive),
          enemyField := ((s.enemyField.map processCreatureEffects).filter alive) }) := by
  have hne : e.healthEffect ≠ 0 := by rw [hhe]; decide
  have hdneg : ¬ (0 < e.duration - 1) := by omega
  have hmain : processCreatureEffects c =
      { c with
        currentHealth := (min c.battleStats.maxHealth (max 0 (c.currentHealth + e.healthEffect))),
        battleStats := (e.statEffect.foldl (fun bs sv => applyStatDelta bs sv.1 sv.2)
          c.battleStats),
        activeEffects := [],
        isDefending := false } := by
    simp only [processCreatureEffects, tickEffects, hfx, List.foldl, if_pos hne,
      if_neg hdneg, List.map_nil]
  refine ⟨?_, ?_, ?_, ?_, fun ext s => rfl⟩
  · rw [hmain]
    show min c.battleStats.maxHealth (max 0 (c.currentHealth + e.healthEffect)) = _
    rw [hhe]
    omega
  · rw [hmain]
  · rw [hmain]
  · refine statsUnchangedOfNoEffects _ ?_
    rw [hmain]

/-- Claim C8 (witness): the effect expiry applied to the concrete
creature `c8w` (12 health, one Poison effect). -/
theorem claim8_witness :
    (processCreatureEffects c8w).currentHealth = 7 ∧
    (processCreatureEffects c8w).activeEffects = [] := by
  have h := claim8_effect_expiry c8w e8w rfl rfl rfl (by decide) (by decide)
  exact ⟨h.1.trans (by decide), h.2.1⟩

/-- Claim C9: SPEND_ENERGY sets the named side's energy to
max(0, energy − amount) and leaves every other field of the state
unchanged; spending at least the available energy yields exactly 0. -/
theorem claim9_spend_energy (ext : Externals) (s : BattleState) (amount : Int) :
    battleReducer ext s (Action.spendEnergy ("player") amount) =
      Except.ok { s with playerEnergy := (max 0 (s.playerEnergy - amount)) } ∧
    battleReducer ext s (Action.spendEnergy ("enemy") amount) =
      Except.ok { s with enemyEnergy := (max 0 (s.enemyEnergy - amount)) } ∧
    (s.playerEnergy ≤ amount →
      battleReducer ext s (Action.spendEnergy ("player") amount) =
        Except.ok { s with playerEnergy := 0 }) ∧
    (s.enemyEnergy ≤ amount →
      battleReducer ext s (Action.spendEnergy ("enemy") amount) =
        Except.ok { s with enemyEnergy := 0 }) := by
  refine ⟨rfl, rfl, fun h => ?_, fun h => ?_⟩
  · have hz : max 0 (s.playerEnergy - amount) = 0 := by omega
    have base : battleReducer ext s (Action.spendEnergy ("player") amount) =
        Except.ok { s with playerEnergy := (max 0 (s.playerEnergy - amount)) } := rfl
    rw [base, hz]
  · have hz : max 0 (s.enemyEnergy - amount) = 0 := by omega
    have base : battleReducer ext s (Action.spendEnergy ("enemy") amount) =
        Except.ok { s with enemyEnergy := (max 0 (s.enemyEnergy - amount)) } := rfl
    rw [base, hz]

/-- Claim C9 (witness): spending 12 energy out of 10 yields exactly 0. -/
theorem claim9_witness :
    battleReducer trivialExternals initialState (Action.spendEnergy ("player") 12) =
      Except.ok { initialState with playerEnergy := 0 } :=
  (claim9_spend_energy trivialExternals initialState 12).2.2.1 (by decide)

/-- Claim C10: for every state and every action whose type tag is none of
the defined action kinds, the reducer hits the default case and returns
the input state unchanged without raising. -/
theorem claim10_default_case (ext : Externals) (s : BattleState) (tag : String) :
    battleReducer ext s (Action.unknown tag) = Except.ok s := rfl

end BattleSim
